import Mathlib

/-!
Verification of `stella_vslam::data::keyframe` (src/stella_vslam/data/keyframe.cc)
against its natural-language specification.

The keyframe entity is shallowly embedded: its mutable fields become a Lean
structure `KeyframeState`, each member function becomes a pure function on that
structure, and instructions sent to external collaborators (landmarks, the
covisibility graph node, the map database, the bag-of-words database) are
recorded as an explicit event trace (`Ev`).  Member functions that can throw
(`std::vector::at` on an out-of-range index) return `Except Unit _`.
Floating-point scalars are modelled as rationals.
-/

namespace StellaVSLAM

/-- 4x4 pose matrix (`Mat44_t`), entries as rationals. -/
abbrev Mat44 : Type := Fin 4 → Fin 4 → ℚ

/-- The 4x4 identity matrix (`Mat44_t::Identity()`). -/
def mat44Id : Mat44 := fun i j => if i = j then 1 else 0

/-- Matrix product of two 4x4 matrices. -/
def mat44Mul (A B : Mat44) : Mat44 := fun i j => ∑ k : Fin 4, A i k * B k j

/-- External landmark as seen from the keyframe code (§6 of the spec).
`willBeErased` is the flag `landmark::will_be_erased()` reports before the
erasure protocol touches it; `erasedAfterRemoval` is the value that same flag
reports right after `erase_observation` (the landmark may die when it loses
the observation — external behaviour, supplied as an oracle);
`indexInKeyframe` is what `get_index_in_keyframe(this)` returns (negative
means: no recorded slot).  The world position `pos_w` is the triple
(`posWx`, `posWy`, `posWz`). -/
structure Landmark where
  lmId : ℕ
  posWx : ℚ
  posWy : ℚ
  posWz : ℚ
  willBeErased : Bool
  erasedAfterRemoval : Bool
  indexInKeyframe : ℤ
  deriving DecidableEq

/-- State of one keyframe together with the graph-node fields the keyframe
code reads (`has_loop_edge`, spanning parent/children, loop edges) and the
oracle `recoveredParent`: the spanning parent that
`graph_node::get_spanning_parent()` reports after
`recover_spanning_connections()` has run (external graph-repair behaviour). -/
structure KeyframeState where
  kfId : ℕ
  timestamp : ℚ
  numKeypts : ℕ
  landmarks : List (Option Landmark)
  poseCw : Mat44
  poseWc : Mat44
  transWc : ℚ × ℚ × ℚ
  cannotBeErased : Bool
  willBeErased : Bool
  spanningParent : Option ℕ
  spanningChildren : List ℕ
  loopEdgeIds : List ℕ
  recoveredParent : Option ℕ

/-- Instructions the keyframe code sends to external collaborators
(landmarks, the graph node, `map_database`, `bow_database`), recorded as an
event trace.  `setWillBeErased` marks the internal flag raise that starts the
erasure protocol, so that the trace shows the full step order. -/
inductive Ev where
  | setWillBeErased
  | lmAddObservation (lmId : ℕ) (idx : ℕ)
  | lmUpdateMeanNormalAndObsScaleVariance (lmId : ℕ)
  | lmComputeDescriptor (lmId : ℕ)
  | lmEraseObservation (lmId : ℕ)
  | eraseAllConnections
  | recoverSpanningConnections
  | replaceReferenceKeyframe (newRef : Option ℕ)
  | mapEraseKeyframe (kfId : ℕ)
  | bowEraseKeyframe (kfId : ℕ)
  deriving DecidableEq

/-- `trans_wc_ = -rot_wc * trans_cw` where `rot_wc = rot_cw.transpose()`:
the world-frame camera translation computed inside `set_pose_cw`
(keyframe.cc lines 124-127), with the 3-vector written as a triple. -/
def transWcOf (T : Mat44) : ℚ × ℚ × ℚ :=
  (-(T 0 0 * T 0 3 + T 1 0 * T 1 3 + T 2 0 * T 2 3),
   -(T 0 1 * T 0 3 + T 1 1 * T 1 3 + T 2 1 * T 2 3),
   -(T 0 2 * T 0 3 + T 1 2 * T 1 3 + T 2 2 * T 2 3))

/-- `pose_wc_` as built by `set_pose_cw` (keyframe.cc lines 129-131):
start from `Mat44_t::Identity()`, overwrite the top-left 3x3 block with
`rot_cw.transpose()` and the top-right 3x1 block with `trans_wc_`. -/
def rigidInverse (T : Mat44) : Mat44 := fun i j =>
  if (i : ℕ) < 3 then
    if (j : ℕ) < 3 then T j i
    else -(T 0 i * T 0 3 + T 1 i * T 1 3 + T 2 i * T 2 3)
  else mat44Id i j

/-- `keyframe::set_pose_cw`: store the camera-from-world pose and recompute
`pose_wc_` and `trans_wc_` from it in the same critical section (modelled as
a single state transition). -/
def set_pose_cw (st : KeyframeState) (T : Mat44) : KeyframeState :=
  { st with poseCw := T, poseWc := rigidInverse T, transWc := transWcOf T }

/-- `keyframe::get_pose_cw`. -/
def get_pose_cw (st : KeyframeState) : Mat44 := st.poseCw

/-- `keyframe::get_pose_wc`. -/
def get_pose_wc (st : KeyframeState) : Mat44 := st.poseWc

/-- `keyframe::get_trans_wc`. -/
def get_trans_wc (st : KeyframeState) : ℚ × ℚ × ℚ := st.transWc

/-- The live frame a keyframe can be constructed from.
Modelled from the spec: `data::frame` is outside keyframe.cc; §4.1 says the
constructor adopts the frame's pose, observations and already-populated
landmark slots. -/
structure Frame where
  timestamp : ℚ
  numKeypts : ℕ
  landmarks : List (Option Landmark)
  poseCw : Mat44

/-- Constructor `keyframe::keyframe(id, frame)` (keyframe.cc lines 18-26):
adopt the frame's observations and landmark slots, then `set_pose_cw` with
the frame's pose.  The attached graph node starts with no edges, no parent,
no children and no loop edges. -/
def keyframe_from_frame (id : ℕ) (frm : Frame) : KeyframeState :=
  set_pose_cw
    { kfId := id, timestamp := frm.timestamp, numKeypts := frm.numKeypts
      landmarks := frm.landmarks
      poseCw := mat44Id, poseWc := mat44Id, transWc := (0, 0, 0)
      cannotBeErased := false, willBeErased := false
      spanningParent := none, spanningChildren := [], loopEdgeIds := []
      recoveredParent := none }
    frm.poseCw

/-- Constructor from persisted fields (keyframe.cc lines 28-46): the landmark
slot sequence initialises to `num_keypts` empty slots, then `set_pose_cw`. -/
def keyframe_from_fields (id : ℕ) (ts : ℚ) (poseCw : Mat44) (numKeypts : ℕ) :
    KeyframeState :=
  set_pose_cw
    { kfId := id, timestamp := ts, numKeypts := numKeypts
      landmarks := List.replicate numKeypts none
      poseCw := mat44Id, poseWc := mat44Id, transWc := (0, 0, 0)
      cannotBeErased := false, willBeErased := false
      spanningParent := none, spanningChildren := [], loopEdgeIds := []
      recoveredParent := none }
    poseCw

/-- `keyframe::add_landmark(lm, idx)`: unconditional overwrite of slot `idx`;
`landmarks_.at(idx)` throws out of range, modelled as `Except.error`. -/
def add_landmark (st : KeyframeState) (lm : Landmark) (idx : ℕ) :
    Except Unit KeyframeState :=
  if idx < st.landmarks.length then
    Except.ok { st with landmarks := st.landmarks.set idx (some lm) }
  else Except.error ()

/-- `keyframe::erase_landmark_with_index(idx)`: unconditional clear of slot
`idx`; out-of-range throws. -/
def erase_landmark_with_index (st : KeyframeState) (idx : ℕ) :
    Except Unit KeyframeState :=
  if idx < st.landmarks.length then
    Except.ok { st with landmarks := st.landmarks.set idx none }
  else Except.error ()

/-- `keyframe::erase_landmark(lm)` (keyframe.cc lines 181-187): ask the
landmark for its recorded slot in this keyframe; clear that slot when the
reported index is non-negative (the slot content is not re-checked),
otherwise do nothing. -/
def erase_landmark (st : KeyframeState) (lm : Landmark) :
    Except Unit KeyframeState :=
  if 0 ≤ lm.indexInKeyframe then
    if lm.indexInKeyframe.toNat < st.landmarks.length then
      Except.ok { st with landmarks := st.landmarks.set lm.indexInKeyframe.toNat none }
    else Except.error ()
  else Except.ok st

/-- `keyframe::get_landmark(idx)`: read slot `idx`; out-of-range throws. -/
def get_landmark (st : KeyframeState) (idx : ℕ) :
    Except Unit (Option Landmark) :=
  if h : idx < st.landmarks.length then Except.ok (st.landmarks.get ⟨idx, h⟩)
  else Except.error ()

/-- `keyframe::update_landmarks` (keyframe.cc lines 189-206): for every
non-empty, non-erasing slot, instruct the landmark to record this keyframe
and slot as an observer, then recompute its mean normal / scale variance and
its descriptor.  The slot sequence itself is not modified. -/
def update_landmarks (st : KeyframeState) : KeyframeState × List Ev :=
  (st,
    st.landmarks.enum.flatMap fun p =>
      match p.2 with
      | none => []
      | some lm =>
        if lm.willBeErased then []
        else
          [Ev.lmAddObservation lm.lmId p.1,
           Ev.lmUpdateMeanNormalAndObsScaleVariance lm.lmId,
           Ev.lmComputeDescriptor lm.lmId])

/-- Length invariant of §8: the landmark-slot sequence always has one slot
per feature observation fixed at construction. -/
def landmarksLenInv (st : KeyframeState) : Prop :=
  st.landmarks.length = st.numKeypts

/-- Per-landmark z-axis depth inside `compute_median_depth`
(keyframe.cc lines 296-304): `rot_cw_z_row.dot(pos_w) + trans_cw_z`,
where `rot_cw_z_row = pose_cw.block<1,3>(2,0)` and
`trans_cw_z = pose_cw(2,3)`. -/
def depthOf (T : Mat44) (lm : Landmark) : ℚ :=
  T 2 0 * lm.posWx + T 2 1 * lm.posWy + T 2 2 * lm.posWz + T 2 3

/-- The depth list `compute_median_depth` builds (keyframe.cc lines
294-306): one entry per non-null landmark slot, in slot order — note the
loop skips only `!lm`, not `lm->will_be_erased()`. -/
def depthsOf (st : KeyframeState) (useAbs : Bool) : List ℚ :=
  st.landmarks.filterMap fun slot =>
    slot.map fun lm =>
      if useAbs then |depthOf st.poseCw lm| else depthOf st.poseCw lm

/-- Depth list as the spec sentence behind C5 describes it: empty slots AND
slots whose landmark reports itself as being-erased contribute nothing.
Spec-side definition, for comparison with the source-derived `depthsOf`. -/
def depthsSpecExcludingErasing (st : KeyframeState) (useAbs : Bool) : List ℚ :=
  st.landmarks.filterMap fun slot =>
    slot.bind fun lm =>
      if lm.willBeErased then none
      else some (if useAbs then |depthOf st.poseCw lm| else depthOf st.poseCw lm)

/-- `keyframe::compute_median_depth(abs)` (keyframe.cc lines 284-311): sort
the depth list ascending and return the element at index
`(depths.size() - 1) / 2`; with zero depths `depths.at(...)` throws,
modelled as `none`. -/
def compute_median_depth (st : KeyframeState) (useAbs : Bool) : Option ℚ :=
  let sorted := (depthsOf st useAbs).mergeSort
  sorted[(sorted.length - 1) / 2]?

/-- The `lm_ids` field of `keyframe::to_json` (keyframe.cc lines 76-81):
initialise every entry to -1, then store the landmark id for every slot that
is non-null and not being erased. -/
def to_json_lm_ids (st : KeyframeState) : List ℤ :=
  st.landmarks.map fun slot =>
    match slot with
    | none => -1
    | some lm => if lm.willBeErased then -1 else (lm.lmId : ℤ)

/-- The `span_parent` field of `keyframe::to_json` (keyframe.cc line 115):
the parent's id, or -1 when the node has no spanning parent. -/
def to_json_span_parent (st : KeyframeState) : ℤ :=
  match st.spanningParent with
  | some p => (p : ℤ)
  | none => -1

/-- The `span_children` field of `keyframe::to_json`. -/
def to_json_span_children (st : KeyframeState) : List ℤ :=
  st.spanningChildren.map fun c => (c : ℤ)

/-- The `loop_edges` field of `keyframe::to_json`. -/
def to_json_loop_edges (st : KeyframeState) : List ℤ :=
  st.loopEdgeIds.map fun c => (c : ℤ)

/-- `graph_node::has_loop_edge()`: whether the loop-edge set is non-empty.
Modelled from the spec: the graph node itself is outside keyframe.cc;
§4.2 states `has_loop_edge()` reports non-emptiness of the loop-edge set. -/
def hasLoopEdge (st : KeyframeState) : Bool := !st.loopEdgeIds.isEmpty

/-- `keyframe::set_not_to_be_erased()`: raise the pin flag. -/
def set_not_to_be_erased (st : KeyframeState) : KeyframeState :=
  { st with cannotBeErased := true }

/-- `keyframe::set_to_be_erased()`: clear the pin flag, but only when the
graph node holds no loop edge. -/
def set_to_be_erased (st : KeyframeState) : KeyframeState :=
  if hasLoopEdge st then st else { st with cannotBeErased := false }

/-- Instructions step 2 of the erasure protocol sends for one landmark slot
(keyframe.cc lines 362-374): skip empty and already-erasing slots; otherwise
`erase_observation`, and when the landmark still survives that removal,
`compute_descriptor` then `update_mean_normal_and_obs_scale_variance`. -/
def slotErasureEvents : Option Landmark → List Ev
  | none => []
  | some lm =>
    if lm.willBeErased then []
    else
      Ev.lmEraseObservation lm.lmId ::
        (if lm.erasedAfterRemoval then []
         else [Ev.lmComputeDescriptor lm.lmId,
               Ev.lmUpdateMeanNormalAndObsScaleVariance lm.lmId])

/-- `keyframe::prepare_for_erasing(map_db, bow_db)` (keyframe.cc lines
342-392).  Guard clauses: return untouched when this keyframe is the map's
origin or when `cannot_be_erased_` is raised (the origin comparison
`*this == *(map_db->origin_keyfrm_)` is keyframe identity, modelled from the
spec as id equality since `operator==` lives in the header outside src).
Otherwise: raise `will_be_erased_`, detach every live landmark, clear the
graph node's connections, repair the spanning tree, hand the recovered
spanning parent to the map database as new reference, and remove this
keyframe from the map and bag-of-words databases — in that order. -/
def prepare_for_erasing (st : KeyframeState) (originId : ℕ) :
    KeyframeState × List Ev :=
  if st.kfId = originId then (st, [])
  else if st.cannotBeErased then (st, [])
  else
    ({ st with willBeErased := true },
      Ev.setWillBeErased ::
        ((st.landmarks.map slotErasureEvents).flatten ++
         [Ev.eraseAllConnections, Ev.recoverSpanningConnections,
          Ev.replaceReferenceKeyframe st.recoveredParent,
          Ev.mapEraseKeyframe st.kfId, Ev.bowEraseKeyframe st.kfId]))

/-- The erasure trace exactly as the spec sentences behind C1 word it:
step (1), then for every non-empty non-erasing landmark slot its detachment
instructions, then steps (3)-(5).  Spec-side definition, compared against
the source-derived `prepare_for_erasing`. -/
def prepareForErasingSpecTrace (st : KeyframeState) : List Ev :=
  Ev.setWillBeErased ::
    ((((st.landmarks.filterMap id).filter fun lm => !lm.willBeErased).flatMap
        fun lm =>
          Ev.lmEraseObservation lm.lmId ::
            (if lm.erasedAfterRemoval then []
             else [Ev.lmComputeDescriptor lm.lmId,
                   Ev.lmUpdateMeanNormalAndObsScaleVariance lm.lmId])) ++
     [Ev.eraseAllConnections, Ev.recoverSpanningConnections,
      Ev.replaceReferenceKeyframe st.recoveredParent,
      Ev.mapEraseKeyframe st.kfId, Ev.bowEraseKeyframe st.kfId])

/-- Concrete pinned keyframe with one loop edge (witness input). -/
def kfLoop : KeyframeState :=
  { kfId := 7, timestamp := 0, numKeypts := 0, landmarks := []
    poseCw := mat44Id, poseWc := mat44Id, transWc := (0, 0, 0)
    cannotBeErased := true, willBeErased := false
    spanningParent := none, spanningChildren := [], loopEdgeIds := [3]
    recoveredParent := none }

/-- Concrete pinned keyframe with no loop edges (witness input). -/
def kfNoLoop : KeyframeState :=
  { kfLoop with loopEdgeIds := [] }

/-- Concrete keyframe already marked erased, neither origin nor pinned
(counterexample input for the idempotence part of C2). -/
def kfAlreadyErased : KeyframeState :=
  { kfNoLoop with cannotBeErased := false, willBeErased := true }

/-- Concrete un-pinned, un-erased keyframe (counterexample input). -/
def kfFresh : KeyframeState :=
  { kfNoLoop with cannotBeErased := false }

/-- A live landmark that survives losing one observation (witness input). -/
def lmLive : Landmark :=
  { lmId := 11, posWx := 0, posWy := 0, posWz := 3
    willBeErased := false, erasedAfterRemoval := false, indexInKeyframe := 0 }

/-- A landmark that dies when it loses this observation (witness input). -/
def lmDies : Landmark :=
  { lmId := 12, posWx := 0, posWy := 0, posWz := 1
    willBeErased := false, erasedAfterRemoval := true, indexInKeyframe := 1 }

/-- A landmark already being erased (counterexample input for C5). -/
def lmErasing : Landmark :=
  { lmId := 13, posWx := 0, posWy := 0, posWz := 7
    willBeErased := true, erasedAfterRemoval := true, indexInKeyframe := -1 }

/-- Keyframe whose only landmark slot holds a being-erased landmark with
z-depth 7 under the identity pose (counterexample input for C5). -/
def kfErasingOnly : KeyframeState :=
  { kfFresh with
    numKeypts := 1
    landmarks := [some lmErasing] }

/-- Keyframe with a mixed slot population (witness input for C1). -/
def kfMixedSlots : KeyframeState :=
  { kfFresh with
    numKeypts := 4
    landmarks := [none, some lmLive, some lmErasing, some lmDies]
    recoveredParent := some 2 }

/-- Keyframe whose four landmarks have z-depths 2, 1, 3, 4 under the
identity pose (witness input for C4). -/
def kfDepths : KeyframeState :=
  { kfFresh with
    numKeypts := 4
    landmarks :=
      [some { lmLive with lmId := 20, posWz := 2 },
       some { lmLive with lmId := 21, posWz := 1 },
       some { lmLive with lmId := 22, posWz := 3 },
       some { lmLive with lmId := 23, posWz := 4 }] }

/-- Keyframe with one empty slot, one live and one erasing landmark, and a
spanning parent (witness input for C9). -/
def kfJson : KeyframeState :=
  { kfFresh with
    numKeypts := 3
    landmarks := [none, some lmLive, some lmErasing]
    spanningParent := some 4 }

/-- Frame with two slots (witness input for C7). -/
def frmTwo : Frame :=
  { timestamp := 1, numKeypts := 2, landmarks := [some lmLive, none]
    poseCw := mat44Id }

/-- C3: if the graph node holds at least one loop edge, `set_to_be_erased`
leaves the whole state (in particular `cannot_be_erased`) unchanged, and no
number of repeated `set_to_be_erased` calls can ever un-pin the keyframe;
only when there is no loop edge does the call clear the pin. -/
theorem set_to_be_erased_loop_edge_pins
    (st : KeyframeState) (h : hasLoopEdge st = true) :
    set_to_be_erased st = st ∧
    (∀ n : ℕ, (set_to_be_erased^[n] st).cannotBeErased = st.cannotBeErased) ∧
    (∀ st' : KeyframeState, hasLoopEdge st' = false →
      (set_to_be_erased st').cannotBeErased = false) := by
  have hfix : set_to_be_erased st = st := by
    unfold set_to_be_erased
    simp [h]
  refine ⟨hfix, ?_, ?_⟩
  · intro n
    induction n with
    | zero => rfl
    | succ n ih =>
      rw [Function.iterate_succ_apply, hfix, ih]
  · intro st' h'
    unfold set_to_be_erased
    simp [h']

/-- C3 witness: concretely, the pinned looped keyframe stays pinned after
`set_to_be_erased` (even iterated), and the loop-free one is un-pinned. -/
theorem set_to_be_erased_loop_edge_pins_witness :
    (set_to_be_erased^[5] kfLoop).cannotBeErased = kfLoop.cannotBeErased ∧
    (set_to_be_erased kfNoLoop).cannotBeErased = false := by
  have h := set_to_be_erased_loop_edge_pins kfLoop (by decide)
  exact ⟨h.2.1 5, h.2.2 kfNoLoop (by decide)⟩

/-- C2 (amended): `prepare_for_erasing` is a complete no-op — state
untouched, no instruction sent to any landmark, the graph node, the map
database or the bag-of-words database — when the keyframe is the map's
origin or is pinned.  (The already-erased case is NOT guarded: see the
counterexample theorem.) -/
theorem prepare_for_erasing_noop_origin_or_pinned
    (st : KeyframeState) (originId : ℕ)
    (h : st.kfId = originId ∨ st.cannotBeErased = true) :
    prepare_for_erasing st originId = (st, []) := by
  unfold prepare_for_erasing
  rcases h with h | h
  · simp [h]
  · by_cases h2 : st.kfId = originId <;> simp [h, h2]

/-- C2 witness: the pinned keyframe is left fully untouched. -/
theorem prepare_for_erasing_noop_origin_or_pinned_witness :
    prepare_for_erasing kfLoop 0 = (kfLoop, []) :=
  prepare_for_erasing_noop_origin_or_pinned kfLoop 0 (Or.inr (by decide))

/-- C2 counterexample: on a keyframe that is already erased
(`will_be_erased` true) but neither origin nor pinned, `prepare_for_erasing`
is NOT a no-op — it re-runs the protocol and re-instructs the map and
place-recognition registries; likewise a second call right after a first
one emits instructions again, so the call is not idempotent. -/
theorem prepare_for_erasing_already_erased_counterexample :
    kfAlreadyErased.willBeErased = true ∧
    kfAlreadyErased.cannotBeErased = false ∧
    kfAlreadyErased.kfId ≠ 0 ∧
    (prepare_for_erasing kfAlreadyErased 0).2 ≠ [] ∧
    Ev.mapEraseKeyframe kfAlreadyErased.kfId ∈
      (prepare_for_erasing kfAlreadyErased 0).2 ∧
    Ev.bowEraseKeyframe kfAlreadyErased.kfId ∈
      (prepare_for_erasing kfAlreadyErased 0).2 ∧
    (prepare_for_erasing (prepare_for_erasing kfFresh 0).1 0).2 ≠ [] := by
  decide

/-- C10: `erase_landmark(lm)` clears the slot the landmark itself reports:
a negative reported index leaves every slot (indeed the whole state)
unchanged; a non-negative in-range index clears exactly that slot and no
other, with no check that the slot still holds that landmark. -/
theorem erase_landmark_reported_slot
    (st : KeyframeState) (lm : Landmark) :
    (lm.indexInKeyframe < 0 → erase_landmark st lm = Except.ok st) ∧
    (0 ≤ lm.indexInKeyframe → lm.indexInKeyframe.toNat < st.landmarks.length →
      erase_landmark st lm =
        Except.ok
          { st with landmarks := st.landmarks.set lm.indexInKeyframe.toNat none } ∧
      (st.landmarks.set lm.indexInKeyframe.toNat none)[lm.indexInKeyframe.toNat]? =
        some none ∧
      ∀ j, j ≠ lm.indexInKeyframe.toNat →
        (st.landmarks.set lm.indexInKeyframe.toNat none)[j]? = st.landmarks[j]?) := by
  constructor
  · intro h
    unfold erase_landmark
    rw [if_neg (by omega)]
  · intro h hlt
    refine ⟨?_, ?_, ?_⟩
    · unfold erase_landmark
      rw [if_pos h, if_pos hlt]
    · simp [List.getElem?_set_self, hlt]
    · intro j hj
      rw [List.getElem?_set_ne (by omega)]

/-- C10 witness: `lmDies` reports slot 1 of `kfDepths`, which is cleared;
`lmErasing` reports no slot, and the state is returned unchanged. -/
theorem erase_landmark_reported_slot_witness :
    erase_landmark kfDepths lmDies =
      Except.ok { kfDepths with landmarks := kfDepths.landmarks.set 1 none } ∧
    erase_landmark kfDepths lmErasing = Except.ok kfDepths :=
  ⟨((erase_landmark_reported_slot kfDepths lmDies).2 (by decide) (by decide)).1,
   (erase_landmark_reported_slot kfDepths lmErasing).1 (by decide)⟩

/-- C8: for every in-range slot index, `add_landmark`,
`erase_landmark_with_index` and `get_landmark` never reach the out-of-range
error branch; `add_landmark` overwrites the slot unconditionally and
`erase_landmark_with_index` clears it unconditionally, touching no other
slot; and the out-of-range case is the only way any of the three fails. -/
theorem slot_ops_in_range_never_fail
    (st : KeyframeState) (lm : Landmark) (idx : ℕ)
    (hinv : landmarksLenInv st) (h : idx < st.numKeypts) :
    add_landmark st lm idx =
      Except.ok { st with landmarks := st.landmarks.set idx (some lm) } ∧
    erase_landmark_with_index st idx =
      Except.ok { st with landmarks := st.landmarks.set idx none } ∧
    (st.landmarks.set idx (some lm))[idx]? = some (some lm) ∧
    (st.landmarks.set idx none)[idx]? = some none ∧
    (∀ j, j ≠ idx →
      (st.landmarks.set idx (some lm))[j]? = st.landmarks[j]? ∧
      (st.landmarks.set idx none)[j]? = st.landmarks[j]?) ∧
    (∃ slot, get_landmark st idx = Except.ok slot) ∧
    (∀ j, st.numKeypts ≤ j →
      add_landmark st lm j = Except.error () ∧
      erase_landmark_with_index st j = Except.error () ∧
      get_landmark st j = Except.error ()) := by
  unfold landmarksLenInv at hinv
  have hlen : idx < st.landmarks.length := by omega
  refine ⟨?_, ?_, ?_, ?_, ?_, ?_, ?_⟩
  · unfold add_landmark
    rw [if_pos hlen]
  · unfold erase_landmark_with_index
    rw [if_pos hlen]
  · simp [List.getElem?_set_self, hlen]
  · simp [List.getElem?_set_self, hlen]
  · intro j hj
    constructor <;> rw [List.getElem?_set_ne (by omega)]
  · unfold get_landmark
    rw [dif_pos hlen]
    exact ⟨_, rfl⟩
  · intro j hj
    have hjlen : ¬ j < st.landmarks.length := by omega
    refine ⟨?_, ?_, ?_⟩
    · unfold add_landmark
      rw [if_neg hjlen]
    · unfold erase_landmark_with_index
      rw [if_neg hjlen]
    · unfold get_landmark
      rw [dif_neg hjlen]

/-- C8 witness: slot 2 of the four-slot keyframe `kfDepths` is written and
cleared without ever failing, and reading it succeeds. -/
theorem slot_ops_in_range_never_fail_witness :
    add_landmark kfDepths lmLive 2 =
      Except.ok { kfDepths with landmarks := kfDepths.landmarks.set 2 (some lmLive) } ∧
    erase_landmark_with_index kfDepths 2 =
      Except.ok { kfDepths with landmarks := kfDepths.landmarks.set 2 none } ∧
    (∃ slot, get_landmark kfDepths 2 = Except.ok slot) := by
  have h := slot_ops_in_range_never_fail kfDepths lmLive 2 (by rfl) (by decide)
  exact ⟨h.1, h.2.1, h.2.2.2.2.2.1⟩

/-- C7: both constructors establish `landmarks.len() == observations.len()`
(the from-frame constructor under the frame's own version of the same
invariant, since it adopts the frame's slots), and every slot operation —
`add_landmark`, `erase_landmark_with_index`, `erase_landmark`,
`update_landmarks` — preserves it. -/
theorem landmarks_length_invariant :
    (∀ (id : ℕ) (ts : ℚ) (T : Mat44) (n : ℕ),
      landmarksLenInv (keyframe_from_fields id ts T n)) ∧
    (∀ (id : ℕ) (frm : Frame), frm.landmarks.length = frm.numKeypts →
      landmarksLenInv (keyframe_from_frame id frm)) ∧
    (∀ (st : KeyframeState) (lm : Landmark) (idx : ℕ) (st' : KeyframeState),
      landmarksLenInv st → add_landmark st lm idx = Except.ok st' →
      landmarksLenInv st') ∧
    (∀ (st : KeyframeState) (idx : ℕ) (st' : KeyframeState),
      landmarksLenInv st → erase_landmark_with_index st idx = Except.ok st' →
      landmarksLenInv st') ∧
    (∀ (st : KeyframeState) (lm : Landmark) (st' : KeyframeState),
      landmarksLenInv st → erase_landmark st lm = Except.ok st' →
      landmarksLenInv st') ∧
    (∀ st : KeyframeState, landmarksLenInv st →
      landmarksLenInv (update_landmarks st).1) := by
  refine ⟨?_, ?_, ?_, ?_, ?_, ?_⟩
  · intro id ts T n
    simp [keyframe_from_fields, set_pose_cw, landmarksLenInv]
  · intro id frm hfrm
    simpa [keyframe_from_frame, set_pose_cw, landmarksLenInv] using hfrm
  · intro st lm idx st' hinv heq
    unfold add_landmark at heq
    by_cases hc : idx < st.landmarks.length
    · rw [if_pos hc] at heq
      cases heq
      simpa [landmarksLenInv] using hinv
    · rw [if_neg hc] at heq
      cases heq
  · intro st idx st' hinv heq
    unfold erase_landmark_with_index at heq
    by_cases hc : idx < st.landmarks.length
    · rw [if_pos hc] at heq
      cases heq
      simpa [landmarksLenInv] using hinv
    · rw [if_neg hc] at heq
      cases heq
  · intro st lm st' hinv heq
    unfold erase_landmark at heq
    by_cases hc : 0 ≤ lm.indexInKeyframe
    · rw [if_pos hc] at heq
      by_cases hlt : lm.indexInKeyframe.toNat < st.landmarks.length
      · rw [if_pos hlt] at heq
        cases heq
        simpa [landmarksLenInv] using hinv
      · rw [if_neg hlt] at heq
        cases heq
    · rw [if_neg hc] at heq
      cases heq
      exact hinv
  · intro st hinv
    exact hinv

/-- C7 witness: the invariant concretely holds after construction from
persisted fields, after construction from a two-slot frame, and after an
in-range `add_landmark`. -/
theorem landmarks_length_invariant_witness :
    landmarksLenInv (keyframe_from_fields 1 0 mat44Id 5) ∧
    landmarksLenInv (keyframe_from_frame 2 frmTwo) ∧
    landmarksLenInv { kfDepths with landmarks := kfDepths.landmarks.set 0 (some lmLive) } :=
  ⟨landmarks_length_invariant.1 1 0 mat44Id 5,
   landmarks_length_invariant.2.1 2 frmTwo (by rfl),
   landmarks_length_invariant.2.2.1 kfDepths lmLive 0 _ (by rfl) (by rfl)⟩

/-- C4: with at least one included landmark, `compute_median_depth` returns
an element of the computed depth list — never an averaged value — namely the
element at index `(count - 1) / 2` of the ascending sort (the lower median);
in particular any slot order producing depths 1, 2, 3, 4 yields 2. -/
theorem compute_median_depth_lower_median
    (st : KeyframeState) (useAbs : Bool) (h : depthsOf st useAbs ≠ []) :
    (∃ d, compute_median_depth st useAbs = some d ∧ d ∈ depthsOf st useAbs) ∧
    (∃ sorted, List.Perm sorted (depthsOf st useAbs) ∧
      List.Sorted (· ≤ ·) sorted ∧
      compute_median_depth st useAbs = sorted[(sorted.length - 1) / 2]?) ∧
    ((depthsOf st useAbs).Perm [1, 2, 3, 4] →
      compute_median_depth st useAbs = some 2) := by
  have hperm : List.Perm (List.mergeSort (depthsOf st useAbs)) (depthsOf st useAbs) :=
    List.mergeSort_perm (depthsOf st useAbs) _
  have hsorted : List.Sorted (· ≤ ·) (List.mergeSort (depthsOf st useAbs)) :=
    List.sorted_mergeSort' (depthsOf st useAbs)
  have hcmp : compute_median_depth st useAbs =
      (List.mergeSort (depthsOf st useAbs))[((List.mergeSort (depthsOf st useAbs)).length - 1) / 2]? :=
    rfl
  have hpos : 0 < (depthsOf st useAbs).length := List.length_pos.mpr h
  have hlen : (List.mergeSort (depthsOf st useAbs)).length = (depthsOf st useAbs).length :=
    hperm.length_eq
  have hidx : ((List.mergeSort (depthsOf st useAbs)).length - 1) / 2 <
      (List.mergeSort (depthsOf st useAbs)).length := by omega
  refine ⟨?_, ⟨List.mergeSort (depthsOf st useAbs), hperm, hsorted, hcmp⟩, ?_⟩
  · refine ⟨(List.mergeSort (depthsOf st useAbs))[((List.mergeSort (depthsOf st useAbs)).length - 1) / 2],
      ?_, ?_⟩
    · rw [hcmp]
      exact List.getElem?_eq_getElem hidx
    · exact hperm.subset (List.getElem_mem hidx)
  · intro h4
    have he : List.mergeSort (depthsOf st useAbs) = [1, 2, 3, 4] :=
      List.eq_of_perm_of_sorted (hperm.trans h4) hsorted
        (by norm_num [List.sorted_cons])
    rw [hcmp, he]
    rfl

/-- C4 witness: the four landmarks of `kfDepths` have depths 2, 1, 3, 4
under the identity pose — a non-sorted slot order — and the computed median
is 2 (not 2.5). -/
theorem compute_median_depth_lower_median_witness :
    depthsOf kfDepths false = [2, 1, 3, 4] ∧
    compute_median_depth kfDepths false = some 2 := by
  have hd : depthsOf kfDepths false = [2, 1, 3, 4] := by
    simp [depthsOf, depthOf, kfDepths, kfFresh, kfNoLoop, kfLoop, lmLive, mat44Id]
  refine ⟨hd, ?_⟩
  exact (compute_median_depth_lower_median kfDepths false
      (by rw [hd]; exact List.cons_ne_nil _ _)).2.2
    (by rw [hd]; exact List.Perm.swap 1 2 [3, 4])

/-- C5 counterexample: a slot whose landmark reports itself as being-erased
DOES contribute a depth.  `kfErasingOnly` has a single slot holding the
being-erased landmark `lmErasing` (z-depth 7); the source-derived depth list
is `[7]` and the median is 7, while the spec-side reading (erasing slots
contribute nothing) yields the empty list. -/
theorem compute_median_depth_counts_erasing_counterexample :
    lmErasing.willBeErased = true ∧
    kfErasingOnly.landmarks = [some lmErasing] ∧
    depthsOf kfErasingOnly false = [7] ∧
    depthsSpecExcludingErasing kfErasingOnly false = [] ∧
    compute_median_depth kfErasingOnly false = some 7 := by
  have hd : depthsOf kfErasingOnly false = [7] := by
    simp [depthsOf, depthOf, kfErasingOnly, kfFresh, kfNoLoop, kfLoop, lmErasing,
      mat44Id]
  refine ⟨rfl, rfl, hd, rfl, ?_⟩
  have hcmp : compute_median_depth kfErasingOnly false =
      (List.mergeSort (depthsOf kfErasingOnly false))[((List.mergeSort (depthsOf kfErasingOnly false)).length - 1) / 2]? :=
    rfl
  rw [hcmp, hd, List.mergeSort_singleton]
  rfl

/-- C5 (amended): `compute_median_depth` includes a depth contribution for
every non-empty slot — including slots whose landmark is being erased;
only empty slots contribute nothing.  (The being-erased filter the spec
prescribes elsewhere is absent from this one member function.) -/
theorem depths_include_every_nonempty_slot
    (st : KeyframeState) (useAbs : Bool) :
    depthsOf st useAbs =
      (st.landmarks.filterMap id).map fun lm =>
        if useAbs then |depthOf st.poseCw lm| else depthOf st.poseCw lm := by
  unfold depthsOf
  rw [List.map_filterMap]
  rfl

/-- C9: in the serialized record, a per-slot landmark id is -1 exactly when
the slot is empty or its landmark is being erased (otherwise it is that
landmark's id), and the spanning-tree parent id is -1 exactly when the node
has no spanning parent. -/
theorem to_json_sentinel_ids
    (st : KeyframeState) (i : ℕ) (slot : Option Landmark)
    (h : st.landmarks[i]? = some slot) :
    ((to_json_lm_ids st)[i]? = some (-1) ↔
      slot = none ∨ ∃ lm, slot = some lm ∧ lm.willBeErased = true) ∧
    (∀ lm, slot = some lm → lm.willBeErased = false →
      (to_json_lm_ids st)[i]? = some (lm.lmId : ℤ)) ∧
    (to_json_span_parent st = -1 ↔ st.spanningParent = none) := by
  have hspan : to_json_span_parent st = -1 ↔ st.spanningParent = none := by
    unfold to_json_span_parent
    cases hp : st.spanningParent with
    | none => simp
    | some p => simp
  cases slot with
  | none =>
    have hmap : (to_json_lm_ids st)[i]? = some (-1) := by
      unfold to_json_lm_ids
      rw [List.getElem?_map, h]
      rfl
    refine ⟨?_, ?_, hspan⟩
    · simp [hmap]
    · intro lm hs hw
      cases hs
  | some lm =>
    have hmap : (to_json_lm_ids st)[i]? =
        some (if lm.willBeErased then -1 else (lm.lmId : ℤ)) := by
      unfold to_json_lm_ids
      rw [List.getElem?_map, h]
      rfl
    by_cases hw : lm.willBeErased
    · refine ⟨?_, ?_, hspan⟩
      · rw [hmap]
        simp [hw]
      · intro lm' hs hw'
        cases hs
        exact absurd hw' (by simp [hw])
    · refine ⟨?_, ?_, hspan⟩
      · rw [hmap]
        simp [hw]
      · intro lm' hs hw'
        cases hs
        rw [hmap]
        simp [hw]

/-- C9 witness: in `kfJson`, the empty slot 0 and the erasing slot 2
serialize as -1, while the live slot 1 serializes as its landmark's id. -/
theorem to_json_sentinel_ids_witness :
    (to_json_lm_ids kfJson)[0]? = some (-1) ∧
    (to_json_lm_ids kfJson)[1]? = some (lmLive.lmId : ℤ) ∧
    (to_json_lm_ids kfJson)[2]? = some (-1) := by
  have h0 := to_json_sentinel_ids kfJson 0 none (by rfl)
  have h1 := to_json_sentinel_ids kfJson 1 (some lmLive) (by rfl)
  have h2 := to_json_sentinel_ids kfJson 2 (some lmErasing) (by rfl)
  exact ⟨h0.1.mpr (Or.inl rfl), h1.2.1 lmLive rfl rfl,
    h2.1.mpr (Or.inr ⟨lmErasing, rfl, rfl⟩)⟩

/-- The flattened per-slot instruction lists of step 2 equal the spec-side
traversal over non-empty, non-erasing slots. -/
theorem flatten_map_slotErasureEvents (l : List (Option Landmark)) :
    (l.map slotErasureEvents).flatten =
      ((l.filterMap id).filter fun lm => !lm.willBeErased).flatMap fun lm =>
        Ev.lmEraseObservation lm.lmId ::
          (if lm.erasedAfterRemoval then []
           else [Ev.lmComputeDescriptor lm.lmId,
                 Ev.lmUpdateMeanNormalAndObsScaleVariance lm.lmId]) := by
  induction l with
  | nil => rfl
  | cons slot rest ih =>
    cases slot with
    | none => simpa using ih
    | some lm =>
      by_cases hw : lm.willBeErased
      · simp [slotErasureEvents, hw, ih]
      · simp [slotErasureEvents, hw, ih]

/-- C1: on a keyframe that is neither the origin nor pinned,
`prepare_for_erasing` raises `will_be_erased` and emits exactly the
spec-ordered instruction sequence: flag raise, then per-slot landmark
detachment (observation removal, plus descriptor and viewing-statistics
recomputation when the landmark survives) for every non-empty non-erasing
slot in slot order, then graph-edge removal, then spanning-tree repair,
then reference replacement with the recovered parent, then map-database
removal, then place-recognition removal. -/
theorem prepare_for_erasing_protocol
    (st : KeyframeState) (originId : ℕ)
    (hOrig : st.kfId ≠ originId) (hPin : st.cannotBeErased = false) :
    (prepare_for_erasing st originId).1 = { st with willBeErased := true } ∧
    (prepare_for_erasing st originId).1.willBeErased = true ∧
    (prepare_for_erasing st originId).2 = prepareForErasingSpecTrace st := by
  unfold prepare_for_erasing
  rw [if_neg hOrig, if_neg (by simp [hPin])]
  refine ⟨rfl, rfl, ?_⟩
  unfold prepareForErasingSpecTrace
  simp [flatten_map_slotErasureEvents]

/-- C1 witness: the mixed-slot keyframe is marked erased and its emitted
trace matches the spec-side trace. -/
theorem prepare_for_erasing_protocol_witness :
    (prepare_for_erasing kfMixedSlots 0).1.willBeErased = true ∧
    (prepare_for_erasing kfMixedSlots 0).2 = prepareForErasingSpecTrace kfMixedSlots := by
  have h := prepare_for_erasing_protocol kfMixedSlots 0 (by decide) (by decide)
  exact ⟨h.2.1, h.2.2⟩

/-- C6: after `set_pose_cw(T)` for a rigid transform `T` (orthonormal
rotation block, bottom row (0,0,0,1)), `get_pose_wc` returns the rigid
inverse of `T` — rotation block transposed, translation column
`-Rᵀt`, bottom row (0,0,0,1) — and it is a genuine inverse:
`pose_wc * T` is the identity; `get_trans_wc` returns `-Rᵀt`; and all three
pose quantities (`pose_cw`, `pose_wc`, `trans_wc`) are recomputed by the
one `set_pose_cw` transition. -/
theorem set_pose_cw_rigid_inverse
    (st : KeyframeState) (T : Mat44)
    (hOrtho : ∀ i j : Fin 4, (i : ℕ) < 3 → (j : ℕ) < 3 →
      T 0 i * T 0 j + T 1 i * T 1 j + T 2 i * T 2 j = if i = j then 1 else 0)
    (hBottom : ∀ j : Fin 4, T 3 j = if j = 3 then 1 else 0) :
    get_pose_cw (set_pose_cw st T) = T ∧
    get_pose_wc (set_pose_cw st T) = rigidInverse T ∧
    get_trans_wc (set_pose_cw st T) = transWcOf T ∧
    (∀ i j : Fin 4, (i : ℕ) < 3 → (j : ℕ) < 3 → rigidInverse T i j = T j i) ∧
    (rigidInverse T 0 3 = (transWcOf T).1 ∧
     rigidInverse T 1 3 = (transWcOf T).2.1 ∧
     rigidInverse T 2 3 = (transWcOf T).2.2) ∧
    (∀ j : Fin 4, rigidInverse T 3 j = if j = 3 then 1 else 0) ∧
    mat44Mul (rigidInverse T) T = mat44Id := by
  have c3 : ¬ ((3 : Fin 4) : ℕ) < 3 := by decide
  refine ⟨rfl, rfl, rfl, ?_, ⟨rfl, rfl, rfl⟩, ?_, ?_⟩
  · intro i j hi hj
    simp [rigidInverse, hi, hj]
  · intro j
    simp [rigidInverse, mat44Id, c3, eq_comm]
  · funext i j
    simp only [mat44Mul]
    rw [Fin.sum_univ_four]
    by_cases hi : (i : ℕ) < 3
    · have e0 : rigidInverse T i 0 = T 0 i := by simp [rigidInverse, hi]
      have e1 : rigidInverse T i 1 = T 1 i := by simp [rigidInverse, hi]
      have e2 : rigidInverse T i 2 = T 2 i := by simp [rigidInverse, hi]
      have e3 : rigidInverse T i 3 =
          -(T 0 i * T 0 3 + T 1 i * T 1 3 + T 2 i * T 2 3) := by
        simp [rigidInverse, hi, c3]
      by_cases hj : (j : ℕ) < 3
      · have hbj : T 3 j = 0 := by
          rw [hBottom j, if_neg]
          intro hEq
          rw [hEq] at hj
          exact absurd hj (by decide)
        rw [e0, e1, e2, e3, hbj]
        simp only [mat44Id]
        linear_combination hOrtho i j hi hj
      · have hj3 : j = 3 := by
          apply Fin.ext
          have h4 := j.isLt
          have h3 : ((3 : Fin 4) : ℕ) = 3 := rfl
          omega
        subst hj3
        have hb3 : T 3 3 = 1 := by simp [hBottom]
        have hid : mat44Id i 3 = 0 := by
          simp only [mat44Id, if_neg]
          rw [if_neg]
          intro hEq
          rw [hEq] at hi
          exact absurd hi (by decide)
        rw [e0, e1, e2, e3, hb3, hid]
        ring
    · have hi3 : i = 3 := by
        apply Fin.ext
        have h4 := i.isLt
        have h3 : ((3 : Fin 4) : ℕ) = 3 := rfl
        omega
      subst hi3
      have f0 : rigidInverse T 3 0 = 0 := by simp [rigidInverse, mat44Id, c3]
      have f1 : rigidInverse T 3 1 = 0 := by simp [rigidInverse, mat44Id, c3]
      have f2 : rigidInverse T 3 2 = 0 := by simp [rigidInverse, mat44Id, c3]
      have f3 : rigidInverse T 3 3 = 1 := by simp [rigidInverse, mat44Id, c3]
      rw [f0, f1, f2, f3, hBottom j]
      simp [mat44Id, eq_comm]

/-- C6 witness: with the identity pose (orthonormal rotation, rigid bottom
row), `set_pose_cw` produces a `pose_wc` whose product with the pose is the
identity. -/
theorem set_pose_cw_rigid_inverse_witness :
    get_pose_wc (set_pose_cw kfFresh mat44Id) = rigidInverse mat44Id ∧
    mat44Mul (rigidInverse mat44Id) mat44Id = mat44Id := by
  have h := set_pose_cw_rigid_inverse kfFresh mat44Id
    (by
      intro i j hi hj
      fin_cases i <;> fin_cases j <;> simp_all [mat44Id])
    (by
      intro j
      fin_cases j <;> simp [mat44Id])
  exact ⟨h.2.1, h.2.2.2.2.2.2⟩

end StellaVSLAM
